import Mathlib

/-!
Shallow embedding of the NPC viewer's client-side state synchronization
engine (App.tsx of npc-learn): the zone registry, the snapshot loader
(`loadStateDump`), the websocket message handler (`ws.onmessage`), the
activity feed and the detail view.  JS numbers are modelled as rationals;
each call to `Math.random()` is modelled by an explicit oracle input in
[0,1); the responsive canvas size is a parameter (the code recomputes the
zone anchors from it).
-/

/-- A 2-D point in viewport units. -/
structure Pt where
  x : ℚ
  y : ℚ
deriving DecidableEq

/-- The responsive canvas size (`canvasSize`). -/
structure Canvas where
  width : ℚ
  height : ℚ
deriving DecidableEq

/-- `ZONE`: zone identifier → anchor coordinate (responsive grid layout:
top row ENTRANCE/DANCE/STAGE at 0.35·h, bottom row BUFFET/QUIET at 0.85·h). -/
def zoneAnchor (c : Canvas) : String → Option Pt
  | "ENTRANCE" => some ⟨c.width * (1/6), c.height * (7/20)⟩
  | "DANCE"    => some ⟨c.width * (1/2), c.height * (7/20)⟩
  | "STAGE"    => some ⟨c.width * (5/6), c.height * (7/20)⟩
  | "BUFFET"   => some ⟨c.width * (1/4), c.height * (17/20)⟩
  | "QUIET"    => some ⟨c.width * (3/4), c.height * (17/20)⟩
  | _          => none

/-- `ZONE_EMOJI`: glyph shown when an NPC acts in a zone. -/
def zoneEmoji : String → Option String
  | "ENTRANCE" => some "🚪"
  | "BUFFET"   => some "🍽"
  | "DANCE"    => some "💃"
  | "STAGE"    => some "🎤"
  | "QUIET"    => some "🤫"
  | _          => none

/-- `NPC_NAMES`: display names for the six known identifiers. -/
def npcName : ℕ → Option String
  | 1 => some "Phoebe"
  | 2 => some "Sheldon"
  | 3 => some "Dwight"
  | 4 => some "Michael"
  | 5 => some "David"
  | 6 => some "Moira"
  | _ => none

/-- `OFFSET = 18` px, the anti-overlap grid pitch. -/
def OFFSET : ℚ := 18

/-- The deterministic anti-overlap offset computed inline in both
`loadStateDump` (`offX`/`offY`) and the update branch (`offsetX`/`offsetY`):
`((npc_id % 4) * OFFSET, Math.floor(npc_id / 4) * OFFSET)`. -/
def offsetOf (npc_id : ℕ) : Pt :=
  ⟨(npc_id % 4 : ℕ) * OFFSET, (npc_id / 4 : ℕ) * OFFSET⟩

/-- `randomPos()`: a fresh position `(r1·(w−40)+20, r2·(h−40)+20)` where
`r1`, `r2` are the two `Math.random()` draws. -/
def randomPos (c : Canvas) (r1 r2 : ℚ) : Pt :=
  ⟨r1 * (c.width - 40) + 20, r2 * (c.height - 40) + 20⟩

/-- `zone && ZONE[zone] ? ZONE[zone] : randomPos()`: the anchor used by both
the snapshot loader and the update branch.  An absent zone, the empty string
(falsy in JS) and an unrecognized zone all fall back to `randomPos()`. -/
def resolveAnchor (c : Canvas) (zone : Option String) (r1 r2 : ℚ) : Pt :=
  match zone with
  | some z =>
    match zoneAnchor c z with
    | some a => a
    | none   => randomPos c r1 r2
  | none => randomPos c r1 r2

/-- The `Npc` record (`type Npc`): id, position, optional thought bubble,
optional tooltip. -/
structure Npc where
  id : ℕ
  x : ℚ
  y : ℚ
  bubble : Option String := none
  tooltip : Option String := none
deriving DecidableEq

/-- The State Store `Record<number, Npc>` as a JS object: an association
list in key-insertion order. -/
abbrev Store := List (ℕ × Npc)

/-- Property lookup `obj[k]`. -/
def Store.get : Store → ℕ → Option Npc
  | [], _ => none
  | p :: rest, k => if p.1 = k then some p.2 else Store.get rest k

/-- Property write `{...obj, [k]: v}` / `obj[k] = v`: replace in place if the
key exists (JS objects keep the original key position), else append. -/
def Store.set : Store → ℕ → Npc → Store
  | [], k, v => [(k, v)]
  | p :: rest, k, v => if p.1 = k then (k, v) :: rest else p :: Store.set rest k v

/-- One row of the `/state_dump` response:
`{ npc_id: number; x: number; y: number; zone: string }` (any field may be
missing at runtime). -/
structure Row where
  npc_id : ℕ
  x : Option ℚ := none
  y : Option ℚ := none
  zone : Option String := none
deriving DecidableEq

/-- The record `loadStateDump` builds for one row: zone anchor (or random
fallback) plus the per-identifier offset.  The destructured `x`/`y` of the
row are not read by the source. -/
def snapRecord (c : Canvas) (row : Row) (r : ℚ × ℚ) : Npc :=
  { id := row.npc_id
    x := (resolveAnchor c row.zone r.1 r.2).x + (offsetOf row.npc_id).x
    y := (resolveAnchor c row.zone r.1 r.2).y + (offsetOf row.npc_id).y }

/-- The `rows.forEach` loop of `loadStateDump`, filling the `fresh` object;
`rng i` supplies the `Math.random()` draws available to row `i`. -/
def buildFreshAux (c : Canvas) (rng : ℕ → ℚ × ℚ) : List Row → ℕ → Store → Store
  | [], _, acc => acc
  | row :: rest, i, acc =>
      buildFreshAux c rng rest (i + 1) (Store.set acc row.npc_id (snapRecord c row (rng i)))

/-- `loadStateDump` / `setNpcs(fresh)`: the whole map is replaced by records
computed from the rows alone; the previous store is not consulted. -/
def applySnapshot (c : Canvas) (rows : List Row) (rng : ℕ → ℚ × ℚ) (_s : Store) : Store :=
  buildFreshAux c rng rows 0 []

/-- An update event after the `undefined` guards: identifier, action label,
optional zone. -/
structure UpdateMsg where
  npc_id : ℕ
  action : String
  zone : Option String := none
deriving DecidableEq

/-- The record written by the `setNpcs` update branch: it is built from the
message alone — `{ id, x: anchor.x+offsetX, y: anchor.y+offsetY, bubble }` —
so the previous record (position, tooltip) is not carried over. -/
def updatedNpc (c : Canvas) (m : UpdateMsg) (r1 r2 : ℚ) : Npc :=
  { id := m.npc_id
    x := (resolveAnchor c m.zone r1 r2).x + (offsetOf m.npc_id).x
    y := (resolveAnchor c m.zone r1 r2).y + (offsetOf m.npc_id).y
    bubble := some (match m.zone with
      | some z =>
        match zoneEmoji z with
        | some e => e
        | none => m.action
      | none => m.action) }

/-- The `setNpcs` call of the update branch. -/
def applyUpdate (c : Canvas) (m : UpdateMsg) (r1 r2 : ℚ) (s : Store) : Store :=
  Store.set s m.npc_id (updatedNpc c m r1 r2)

/-- `setNpcs({})`: the RESET branch and the Reset button clear the map. -/
def applyReset (_s : Store) : Store := []

/-- The feed line
`${zone} → ${NPC_NAMES[msg.npc_id] || "NPC " + msg.npc_id}: ${ZONE_EMOJI[zone]}`. -/
def feedEntry (npc_id : ℕ) (zone emoji : String) : String :=
  zone ++ " → " ++
    (match npcName npc_id with
     | some n => n
     | none => "NPC " ++ toString npc_id) ++
    ": " ++ emoji

/-- The `setFeed` step: guarded by JS truthiness
`if (msg.npc_id && msg.action && msg.zone)` — so identifier `0`, an empty
action and an empty zone string all skip the feed — then by
`isZoneKey(zone)` (membership in `ZONE_EMOJI`). -/
def updateFeed (m : UpdateMsg) (feed : List String) : List String :=
  if m.npc_id = 0 ∨ m.action = "" then feed
  else
    match m.zone with
    | none => feed
    | some z =>
      if z = "" then feed
      else
        match zoneEmoji z with
        | some e => feedEntry m.npc_id z e :: feed
        | none => feed

/-- A parsed inbound websocket frame: all fields optional, as in the
source's cast of `JSON.parse(e.data)`. -/
structure Msg where
  mtype : Option String := none
  npc_id : Option ℕ := none
  action : Option String := none
  zone : Option String := none
deriving DecidableEq

/-- An inbound frame before parsing: `malformed` stands for a payload on
which `JSON.parse` throws — the handler then aborts before reaching any
`setNpcs`/`setFeed` call, so no state is touched. -/
inductive RawMsg where
  | malformed : RawMsg
  | parsed : Msg → RawMsg
deriving DecidableEq

/-- The component state read and written by the handlers: the NPC map, the
activity feed, the selected NPC and its fetched recall list. -/
structure AppState where
  npcs : Store := []
  feed : List String := []
  selectedNpc : Option ℕ := none
  selectedNpcRecall : List String := []
deriving DecidableEq

/-- `ws.onmessage`: parse failure touches nothing; `type === "RESET"` clears
the map (the asynchronous `loadStateDump()` re-pull lands later as a
snapshot event); a frame missing `npc_id` or `action` is discarded;
otherwise the update branch runs `setNpcs` and then the feed step. -/
def handleMessage (c : Canvas) (raw : RawMsg) (r1 r2 : ℚ) (s : AppState) : AppState :=
  match raw with
  | .malformed => s
  | .parsed m =>
    if m.mtype = some "RESET" then { s with npcs := [] }
    else
      match m.npc_id, m.action with
      | some id, some a =>
        { s with
          npcs := applyUpdate c ⟨id, a, m.zone⟩ r1 r2 s.npcs
          feed := updateFeed ⟨id, a, m.zone⟩ s.feed }
      | _, _ => s

/-- Run a sequence of inbound frames (each with its two random draws). -/
def runMsgs (c : Canvas) : List (RawMsg × ℚ × ℚ) → AppState → AppState
  | [], s => s
  | t :: rest, s => runMsgs c rest (handleMessage c t.1 t.2.1 t.2.2 s)

/-- One store-level operation: a completed snapshot load, one update event,
or a reset clear. -/
inductive Op where
  | snapshot : List Row → (ℕ → ℚ × ℚ) → Op
  | update : UpdateMsg → ℚ → ℚ → Op
  | reset : Op

/-- Apply one operation to the store. -/
def applyOp (c : Canvas) : Op → Store → Store
  | .snapshot rows rng, s => applySnapshot c rows rng s
  | .update m r1 r2, s => applyUpdate c m r1 r2 s
  | .reset, s => applyReset s

/-- Run a sequence of store-level operations. -/
def runOps (c : Canvas) : List Op → Store → Store
  | [], s => s
  | op :: rest, s => runOps c rest (applyOp c op s)

/-- The Close button of the detail view:
`setSelectedNpc(null); setSelectedNpcRecall([])`. -/
def closeDetail (s : AppState) : AppState :=
  { s with selectedNpc := none, selectedNpcRecall := [] }

/-- Clicking an NPC: `setSelectedNpc(n.id)` (the recall fetch completes
asynchronously). -/
def selectNpc (id : ℕ) (s : AppState) : AppState :=
  { s with selectedNpc := some id }

/-- Arrival of a `/recall` response: `setSelectedNpcRecall(data.memories || [])`. -/
def recallArrived (memories : List String) (s : AppState) : AppState :=
  { s with selectedNpcRecall := memories }

/-- `producesFeed raw` is true exactly when the handler prepends a feed
entry for the frame `raw`: not a RESET, both `npc_id` and `action` present
and truthy, and a truthy zone that is a key of `ZONE_EMOJI`. -/
def producesFeed (raw : RawMsg) : Bool :=
  match raw with
  | .malformed => false
  | .parsed m =>
    if m.mtype = some "RESET" then false
    else
      match m.npc_id, m.action with
      | some id, some a =>
        if id = 0 ∨ a = "" then false
        else
          match m.zone with
          | some z => if z = "" then false else (zoneEmoji z).isSome
          | none => false
      | _, _ => false

/-- A row with its explicit coordinates removed. -/
def Row.eraseXY (r : Row) : Row := { r with x := none, y := none }

/-- Both coordinates of every record in the store are nonnegative. -/
def Store.allNonneg (s : Store) : Prop := ∀ q ∈ s, 0 ≤ q.2.x ∧ 0 ≤ q.2.y

/-- Both `Math.random()` draws of a pair lie in the unit interval. -/
def unitDraws (r : ℚ × ℚ) : Prop := 0 ≤ r.1 ∧ r.1 ≤ 1 ∧ 0 ≤ r.2 ∧ r.2 ≤ 1

/-- All random draws an operation consumes lie in the unit interval. -/
def Op.validRng : Op → Prop
  | .snapshot _ rng => ∀ i, unitDraws (rng i)
  | .update _ r1 r2 => unitDraws (r1, r2)
  | .reset => True

theorem Store.get_set_self (s : Store) (k : ℕ) (v : Npc) :
    Store.get (Store.set s k v) k = some v := by
  induction s with
  | nil => simp [Store.set, Store.get]
  | cons p rest ih =>
    by_cases hp : p.1 = k
    · simp [Store.set, Store.get, hp]
    · simp [Store.set, Store.get, hp, ih]

theorem Store.mem_set {s : Store} {k : ℕ} {v : Npc} {q : ℕ × Npc}
    (h : q ∈ Store.set s k v) : q = (k, v) ∨ q ∈ s := by
  induction s with
  | nil => simpa [Store.set] using h
  | cons p rest ih =>
    simp only [Store.set] at h
    by_cases hp : p.1 = k
    · rw [if_pos hp] at h
      rcases List.mem_cons.mp h with h1 | h1
      · exact Or.inl h1
      · exact Or.inr (List.mem_cons_of_mem _ h1)
    · rw [if_neg hp] at h
      rcases List.mem_cons.mp h with h1 | h1
      · exact Or.inr (h1 ▸ List.mem_cons_self _ _)
      · rcases ih h1 with h2 | h2
        · exact Or.inl h2
        · exact Or.inr (List.mem_cons_of_mem _ h2)

/-- Claim C3: a malformed inbound frame (one on which `JSON.parse` throws)
leaves the whole component state — NPC map, feed, selection — unchanged:
the handler performs no mutation before the parse. -/
theorem C3_malformed_frame_discarded (c : Canvas) (r1 r2 : ℚ) (s : AppState) :
    handleMessage c RawMsg.malformed r1 r2 s = s := rfl

/-- Claim C7: `loadStateDump` builds the new map from the rows alone and
replaces the previous map wholesale, so applying the same snapshot (same
rows, same random draws) twice yields exactly the record set of applying it
once. -/
theorem C7_snapshot_idempotent (c : Canvas) (rows : List Row) (rng : ℕ → ℚ × ℚ) (s : Store) :
    applySnapshot c rows rng (applySnapshot c rows rng s) = applySnapshot c rows rng s := rfl

/-- Claim C9 counterexample: with NPC 3 selected and its fetched memories
`["met Dwight", "danced"]` on screen, pressing Close empties the cached
memory list — it is not preserved across the close, contrary to the claim. -/
theorem C9_counterexample :
    (closeDetail ⟨[], [], some 3, ["met Dwight", "danced"]⟩).selectedNpcRecall
      ≠ (⟨[], [], some 3, ["met Dwight", "danced"]⟩ : AppState).selectedNpcRecall := by
  decide

/-- Claim C9 (amended): the Close button clears both the transient selection
and the fetched memory list (`setSelectedNpc(null); setSelectedNpcRecall([])`);
the NPC records and the feed are untouched by the close. -/
theorem C9_close_clears_selection_and_recall (s : AppState) :
    (closeDetail s).selectedNpc = none ∧ (closeDetail s).selectedNpcRecall = []
      ∧ (closeDetail s).npcs = s.npcs ∧ (closeDetail s).feed = s.feed :=
  ⟨rfl, rfl, rfl, rfl⟩

/-- Claim C10: an update rebuilds the record for its identifier from
scratch: the stored record becomes exactly `updatedNpc` — fields id, x, y
and a fresh bubble — whose tooltip is `none`, so a previously attached
tooltip is discarded. -/
theorem C10_update_discards_tooltip (c : Canvas) (m : UpdateMsg) (r1 r2 : ℚ)
    (s : Store) (rec : Npc) (t : String)
    (h1 : Store.get s m.npc_id = some rec) (h2 : rec.tooltip = some t) :
    Store.get (applyUpdate c m r1 r2 s) m.npc_id = some (updatedNpc c m r1 r2)
      ∧ (updatedNpc c m r1 r2).tooltip = none
      ∧ (updatedNpc c m r1 r2).bubble ≠ none := by
  refine ⟨Store.get_set_self s m.npc_id _, rfl, ?_⟩
  simp [updatedNpc]

theorem C10_witness :
    Store.get (applyUpdate ⟨1000, 600⟩ ⟨1, "eat", none⟩ 0 0
        [(1, ⟨1, 100, 100, none, some "met Dwight"⟩)]) 1
      = some (updatedNpc ⟨1000, 600⟩ ⟨1, "eat", none⟩ 0 0)
      ∧ (updatedNpc ⟨1000, 600⟩ ⟨1, "eat", none⟩ 0 0).tooltip = none
      ∧ (updatedNpc ⟨1000, 600⟩ ⟨1, "eat", none⟩ 0 0).bubble ≠ none :=
  C10_update_discards_tooltip ⟨1000, 600⟩ ⟨1, "eat", none⟩ 0 0
    [(1, ⟨1, 100, 100, none, some "met Dwight"⟩)] ⟨1, 100, 100, none, some "met Dwight"⟩
    "met Dwight" (by decide) rfl

/-- Claim C1 counterexample: an update with no zone writes the same record
whether the NPC previously stood at (100, 100) or at (400, 400) — the new
position (38, 20) comes from `randomPos()` plus the offset, not from a
bounded perturbation of the previous position, which is discarded. -/
theorem C1_counterexample :
    Store.get (applyUpdate ⟨1000, 600⟩ ⟨1, "eat", none⟩ 0 0 [(1, ⟨1, 100, 100, none, none⟩)]) 1
      = Store.get (applyUpdate ⟨1000, 600⟩ ⟨1, "eat", none⟩ 0 0 [(1, ⟨1, 400, 400, none, none⟩)]) 1
    ∧ Store.get (applyUpdate ⟨1000, 600⟩ ⟨1, "eat", none⟩ 0 0 [(1, ⟨1, 100, 100, none, none⟩)]) 1
      = some ⟨1, 38, 20, some "eat", none⟩ := by
  refine ⟨by rw [applyUpdate, applyUpdate, Store.get_set_self, Store.get_set_self], ?_⟩
  rw [applyUpdate, Store.get_set_self]
  norm_num [updatedNpc, resolveAnchor, randomPos, offsetOf, OFFSET]

/-- Claim C1 (amended): for an update whose zone is absent or unrecognized,
the new record's position is a fresh `randomPos()` draw plus the
per-identifier offset, its bubble is the raw action label, and the previous
record for that identifier is discarded entirely. -/
theorem C1_no_zone_update_uses_fresh_random_position (c : Canvas) (m : UpdateMsg)
    (r1 r2 : ℚ) (s : Store)
    (h : ∀ z, m.zone = some z → zoneAnchor c z = none ∧ zoneEmoji z = none) :
    Store.get (applyUpdate c m r1 r2 s) m.npc_id =
      some ⟨m.npc_id, (randomPos c r1 r2).x + (offsetOf m.npc_id).x,
            (randomPos c r1 r2).y + (offsetOf m.npc_id).y, some m.action, none⟩ := by
  rw [applyUpdate, Store.get_set_self]
  cases hm : m.zone with
  | none => simp [updatedNpc, resolveAnchor, hm]
  | some z =>
    obtain ⟨h1, h2⟩ := h z hm
    simp [updatedNpc, resolveAnchor, hm, h1, h2]

theorem C1_witness :
    Store.get (applyUpdate ⟨1000, 600⟩ ⟨1, "eat", some "LOUNGE"⟩ 0 0
        [(1, ⟨1, 100, 100, none, none⟩)]) 1
      = some ⟨1, 38, 20, some "eat", none⟩ := by
  have h := C1_no_zone_update_uses_fresh_random_position ⟨1000, 600⟩
      ⟨1, "eat", some "LOUNGE"⟩ 0 0 [(1, ⟨1, 100, 100, none, none⟩)]
      (fun z hz => by injection hz with h2; subst h2; exact ⟨rfl, rfl⟩)
  rw [h]
  norm_num [randomPos, offsetOf, OFFSET]

/-- Claim C2 counterexample: a snapshot row for NPC 1 carrying explicit
coordinates (500, 300) and zone BUFFET is placed at the BUFFET anchor plus
offset, (268, 510) on a 1000×600 canvas — not at its explicit coordinates
plus offset, (518, 300): `loadStateDump` never reads the row's x and y. -/
theorem C2_counterexample :
    Store.get (applySnapshot ⟨1000, 600⟩ [⟨1, some 500, some 300, some "BUFFET"⟩]
        (fun _ => (0, 0)) []) 1 = some ⟨1, 268, 510, none, none⟩
    ∧ Store.get (applySnapshot ⟨1000, 600⟩ [⟨1, some 500, some 300, some "BUFFET"⟩]
        (fun _ => (0, 0)) []) 1 ≠ some ⟨1, 518, 300, none, none⟩ := by
  constructor <;>
    norm_num [applySnapshot, buildFreshAux, Store.set, Store.get, snapRecord,
      resolveAnchor, zoneAnchor, randomPos, offsetOf, OFFSET]

theorem buildFreshAux_eraseXY (c : Canvas) (rng : ℕ → ℚ × ℚ) :
    ∀ (rows : List Row) (i : ℕ) (acc : Store),
      buildFreshAux c rng (rows.map Row.eraseXY) i acc = buildFreshAux c rng rows i acc := by
  intro rows
  induction rows with
  | nil => intro i acc; rfl
  | cons row rest ih =>
    intro i acc
    simp only [List.map_cons, buildFreshAux]
    rw [show snapRecord c (Row.eraseXY row) (rng i) = snapRecord c row (rng i) from rfl]
    exact ih _ _

/-- Claim C2 (amended): `loadStateDump` ignores a row's explicit
coordinates entirely — erasing every row's x and y leaves the resulting
record set unchanged; each row is placed at its recognized zone's anchor
(or a fresh `randomPos()` otherwise) plus the per-identifier offset. -/
theorem C2_snapshot_ignores_explicit_coords (c : Canvas) (rows : List Row)
    (rng : ℕ → ℚ × ℚ) (s : Store) :
    applySnapshot c (rows.map Row.eraseXY) rng s = applySnapshot c rows rng s
    ∧ ∀ row r, (snapRecord c row r).x
          = (resolveAnchor c row.zone r.1 r.2).x + (offsetOf row.npc_id).x
        ∧ (snapRecord c row r).y
          = (resolveAnchor c row.zone r.1 r.2).y + (offsetOf row.npc_id).y := by
  exact ⟨buildFreshAux_eraseXY c rng rows 0 [], fun row r => ⟨rfl, rfl⟩⟩

/-- Claim C8: the anti-overlap offset is a pure function of the identifier
alone: the record an update writes is independent of the rest of the store,
and both in the update branch and in the snapshot loader the written
position differs from the resolved anchor by exactly `offsetOf` of the
identifier. -/
theorem C8_offset_identifier_only (c : Canvas) (id : ℕ) (a : String)
    (oz : Option String) (r1 r2 : ℚ) (s t : Store) (row : Row) (r : ℚ × ℚ) :
    Store.get (applyUpdate c ⟨id, a, oz⟩ r1 r2 s) id
      = Store.get (applyUpdate c ⟨id, a, oz⟩ r1 r2 t) id
    ∧ (updatedNpc c ⟨id, a, oz⟩ r1 r2).x - (resolveAnchor c oz r1 r2).x = (offsetOf id).x
    ∧ (updatedNpc c ⟨id, a, oz⟩ r1 r2).y - (resolveAnchor c oz r1 r2).y = (offsetOf id).y
    ∧ (snapRecord c row r).x - (resolveAnchor c row.zone r.1 r.2).x = (offsetOf row.npc_id).x
    ∧ (snapRecord c row r).y - (resolveAnchor c row.zone r.1 r.2).y = (offsetOf row.npc_id).y := by
  refine ⟨?_, by simp [updatedNpc], by simp [updatedNpc],
    by simp [snapRecord], by simp [snapRecord]⟩
  rw [applyUpdate, applyUpdate, Store.get_set_self, Store.get_set_self]

/-- Claim C5 counterexample: the update `{npc_id: 0, action: "eat",
zone: "BUFFET"}` carries an identifier, an action and a recognized zone,
and it does update the store — yet no feed entry is produced, because the
feed guard `if (msg.npc_id && ...)` treats the identifier 0 as falsy. -/
theorem C5_counterexample :
    (handleMessage ⟨1000, 600⟩ (RawMsg.parsed ⟨none, some 0, some "eat", some "BUFFET"⟩)
        0 0 {}).feed = []
    ∧ (handleMessage ⟨1000, 600⟩ (RawMsg.parsed ⟨none, some 0, some "eat", some "BUFFET"⟩)
        0 0 {}).npcs ≠ [] := by
  constructor
  · rfl
  · simp [handleMessage, applyUpdate, Store.set]

/-- Claim C5 (amended): for an update with a truthy identifier (≠ 0) and a
truthy action (≠ ""), a recognized zone prepends exactly one feed line
`<zone> → <display name or NPC id>: <glyph>`, and an absent or unrecognized
zone prepends nothing; updates with identifier 0 or an empty action never
reach the feed. -/
theorem C5_feed_entry_exactly_on_recognized_zone (c : Canvas) (r1 r2 : ℚ)
    (s : AppState) (id : ℕ) (a : String) (oz : Option String)
    (hid : id ≠ 0) (ha : a ≠ "") :
    (∀ z e, oz = some z → zoneEmoji z = some e →
        (handleMessage c (RawMsg.parsed ⟨none, some id, some a, oz⟩) r1 r2 s).feed
          = feedEntry id z e :: s.feed)
    ∧ ((∀ z, oz = some z → zoneEmoji z = none) →
        (handleMessage c (RawMsg.parsed ⟨none, some id, some a, oz⟩) r1 r2 s).feed
          = s.feed) := by
  constructor
  · intro z e hz he
    subst hz
    have hz0 : z ≠ "" := by
      intro h0
      rw [h0] at he
      exact Option.noConfusion he
    simp [handleMessage, updateFeed, hid, ha, hz0, he]
  · intro hz
    cases oz with
    | none => simp [handleMessage, updateFeed, hid, ha]
    | some z =>
      by_cases hz0 : z = ""
      · subst hz0
        simp [handleMessage, updateFeed, hid, ha]
      · simp [handleMessage, updateFeed, hid, ha, hz0, hz z rfl]

theorem C5_witness :
    (handleMessage ⟨1000, 600⟩ (RawMsg.parsed ⟨none, some 1, some "eat", some "BUFFET"⟩)
        0 0 {}).feed = ["BUFFET → Phoebe: 🍽"] := by
  have h := (C5_feed_entry_exactly_on_recognized_zone ⟨1000, 600⟩ 0 0 {} 1 "eat"
      (some "BUFFET") (by decide) (by decide)).1 "BUFFET" "🍽" rfl rfl
  rw [h]
  rfl

theorem updateFeed_length (m : UpdateMsg) (feed : List String) :
    (updateFeed m feed).length
      = (if (m.npc_id = 0 ∨ m.action = "") then 0
         else match m.zone with
           | none => 0
           | some z => if z = "" then 0 else (if (zoneEmoji z).isSome then 1 else 0))
        + feed.length := by
  by_cases h0 : m.npc_id = 0 ∨ m.action = ""
  · simp [updateFeed, h0]
  · cases hz : m.zone with
    | none => simp [updateFeed, h0, hz]
    | some z =>
      by_cases hz0 : z = ""
      · simp [updateFeed, h0, hz, hz0]
      · cases he : zoneEmoji z with
        | none => simp [updateFeed, h0, hz, hz0, he]
        | some e => simp [updateFeed, h0, hz, hz0, he, Nat.add_comm]

theorem handleMessage_feed_length (c : Canvas) (raw : RawMsg) (r1 r2 : ℚ) (s : AppState) :
    (handleMessage c raw r1 r2 s).feed.length
      = (if producesFeed raw then 1 else 0) + s.feed.length := by
  cases raw with
  | malformed => simp [handleMessage, producesFeed]
  | parsed m =>
    by_cases ht : m.mtype = some "RESET"
    · simp [handleMessage, producesFeed, ht]
    · cases hid : m.npc_id with
      | none => simp [handleMessage, producesFeed, ht, hid]
      | some id =>
        cases ha : m.action with
        | none => simp [handleMessage, producesFeed, ht, hid, ha]
        | some a =>
          have hfeed : (handleMessage c (RawMsg.parsed m) r1 r2 s).feed
              = updateFeed ⟨id, a, m.zone⟩ s.feed := by
            simp [handleMessage, ht, hid, ha]
          rw [hfeed, updateFeed_length]
          by_cases h0 : id = 0 ∨ a = ""
          · simp [producesFeed, ht, hid, ha, h0]
          · cases hz : m.zone with
            | none => simp [producesFeed, ht, hid, ha, h0, hz]
            | some z =>
              by_cases hz0 : z = ""
              · simp [producesFeed, ht, hid, ha, h0, hz, hz0]
              · cases he : zoneEmoji z with
                | none => simp [producesFeed, ht, hid, ha, h0, hz, hz0, he]
                | some e => simp [producesFeed, ht, hid, ha, h0, hz, hz0, he]

theorem runMsgs_feed_length (c : Canvas) :
    ∀ (msgs : List (RawMsg × ℚ × ℚ)) (s : AppState),
      (runMsgs c msgs s).feed.length
        = (msgs.filter (fun t => producesFeed t.1)).length + s.feed.length := by
  intro msgs
  induction msgs with
  | nil => intro s; simp [runMsgs]
  | cons t rest ih =>
    intro s
    rw [show runMsgs c (t :: rest) s = runMsgs c rest (handleMessage c t.1 t.2.1 t.2.2 s)
      from rfl]
    rw [ih, handleMessage_feed_length]
    by_cases h : producesFeed t.1 <;> simp [List.filter, h] <;> omega

/-- Claim C4 counterexample: there is no capacity bound on the activity
feed — for any candidate bound, processing one more recognized-zone update
than the bound makes the feed longer than the bound, and no entry is ever
evicted. -/
theorem C4_counterexample :
    ¬ ∃ cap : ℕ, ∀ msgs : List (RawMsg × ℚ × ℚ),
        ((runMsgs ⟨1000, 600⟩ msgs {}).feed).length ≤ cap := by
  rintro ⟨cap, hcap⟩
  have h := hcap (List.replicate (cap + 1)
    (RawMsg.parsed ⟨none, some 1, some "eat", some "BUFFET"⟩, 0, 0))
  rw [runMsgs_feed_length] at h
  rw [List.filter_replicate] at h
  simp only [show producesFeed (RawMsg.parsed ⟨none, some 1, some "eat", some "BUFFET"⟩)
    = true from rfl] at h
  have h2 : cap + 1 ≤ cap := by simpa using h
  omega

/-- Claim C4 (amended): the feed is unbounded and nothing is ever evicted:
after any sequence of inbound frames, the feed holds exactly one entry per
frame that passes the feed guard (a non-RESET update with truthy identifier
and action and a recognized zone), newest first, on top of whatever was
there before. -/
theorem C4_feed_exact_length (c : Canvas) (msgs : List (RawMsg × ℚ × ℚ)) (s : AppState) :
    (runMsgs c msgs s).feed.length
      = (msgs.filter (fun t => producesFeed t.1)).length + s.feed.length :=
  runMsgs_feed_length c msgs s

theorem zoneAnchor_nonneg (c : Canvas) (hw : 0 ≤ c.width) (hh : 0 ≤ c.height)
    (z : String) (a : Pt) (h : zoneAnchor c z = some a) : 0 ≤ a.x ∧ 0 ≤ a.y := by
  unfold zoneAnchor at h
  split at h <;>
    first
    | exact Option.noConfusion h
    | (injection h with h2
       subst h2
       exact ⟨mul_nonneg hw (by norm_num), mul_nonneg hh (by norm_num)⟩)

theorem randomPos_nonneg (c : Canvas) (hw : 40 ≤ c.width) (hh : 40 ≤ c.height)
    (r1 r2 : ℚ) (h1 : 0 ≤ r1) (h2 : 0 ≤ r2) :
    0 ≤ (randomPos c r1 r2).x ∧ 0 ≤ (randomPos c r1 r2).y := by
  constructor
  · have := mul_nonneg h1 (by linarith : (0 : ℚ) ≤ c.width - 40)
    simp only [randomPos]
    linarith
  · have := mul_nonneg h2 (by linarith : (0 : ℚ) ≤ c.height - 40)
    simp only [randomPos]
    linarith

theorem resolveAnchor_nonneg (c : Canvas) (hw : 40 ≤ c.width) (hh : 40 ≤ c.height)
    (oz : Option String) (r1 r2 : ℚ) (h1 : 0 ≤ r1) (h2 : 0 ≤ r2) :
    0 ≤ (resolveAnchor c oz r1 r2).x ∧ 0 ≤ (resolveAnchor c oz r1 r2).y := by
  have hw0 : (0 : ℚ) ≤ c.width := by linarith
  have hh0 : (0 : ℚ) ≤ c.height := by linarith
  cases oz with
  | none => exact randomPos_nonneg c hw hh r1 r2 h1 h2
  | some z =>
    cases ha : zoneAnchor c z with
    | none => simpa [resolveAnchor, ha] using randomPos_nonneg c hw hh r1 r2 h1 h2
    | some a => simpa [resolveAnchor, ha] using zoneAnchor_nonneg c hw0 hh0 z a ha

theorem offsetOf_nonneg (id : ℕ) : 0 ≤ (offsetOf id).x ∧ 0 ≤ (offsetOf id).y := by
  constructor <;> simp only [offsetOf, OFFSET] <;> positivity

theorem snapRecord_nonneg (c : Canvas) (hw : 40 ≤ c.width) (hh : 40 ≤ c.height)
    (row : Row) (r : ℚ × ℚ) (hr : unitDraws r) :
    0 ≤ (snapRecord c row r).x ∧ 0 ≤ (snapRecord c row r).y := by
  obtain ⟨ha1, ha2⟩ := resolveAnchor_nonneg c hw hh row.zone r.1 r.2 hr.1 hr.2.2.1
  obtain ⟨ho1, ho2⟩ := offsetOf_nonneg row.npc_id
  exact ⟨add_nonneg ha1 ho1, add_nonneg ha2 ho2⟩

theorem updatedNpc_nonneg (c : Canvas) (hw : 40 ≤ c.width) (hh : 40 ≤ c.height)
    (m : UpdateMsg) (r1 r2 : ℚ) (h1 : 0 ≤ r1) (h2 : 0 ≤ r2) :
    0 ≤ (updatedNpc c m r1 r2).x ∧ 0 ≤ (updatedNpc c m r1 r2).y := by
  obtain ⟨ha1, ha2⟩ := resolveAnchor_nonneg c hw hh m.zone r1 r2 h1 h2
  obtain ⟨ho1, ho2⟩ := offsetOf_nonneg m.npc_id
  exact ⟨add_nonneg ha1 ho1, add_nonneg ha2 ho2⟩

theorem buildFreshAux_nonneg (c : Canvas) (hw : 40 ≤ c.width) (hh : 40 ≤ c.height)
    (rng : ℕ → ℚ × ℚ) (hrng : ∀ i, unitDraws (rng i)) :
    ∀ (rows : List Row) (i : ℕ) (acc : Store),
      Store.allNonneg acc → Store.allNonneg (buildFreshAux c rng rows i acc) := by
  intro rows
  induction rows with
  | nil => intro i acc hacc; exact hacc
  | cons row rest ih =>
    intro i acc hacc
    refine ih _ _ ?_
    intro q hq
    rcases Store.mem_set hq with h | h
    · rw [h]
      exact snapRecord_nonneg c hw hh row (rng i) (hrng i)
    · exact hacc q h

/-- Claim C6 counterexample: on a 1000×600 canvas, an update for the large
identifier 1000 with the recognized zone ENTRANCE stores the position
(500/3, 4710): its y exceeds the viewport height 600, because the
per-identifier offset ⌊1000/4⌋·18 = 4500 is added to the anchor without any
clamping — the in-bounds invariant fails for large identifiers. -/
theorem C6_counterexample :
    Store.get (applyUpdate ⟨1000, 600⟩ ⟨1000, "eat", some "ENTRANCE"⟩ 0 0 []) 1000
      = some ⟨1000, 500/3, 4710, some "🚪", none⟩
    ∧ ¬ ((4710 : ℚ) ≤ (⟨1000, 600⟩ : Canvas).height) := by
  constructor
  · rw [applyUpdate, Store.get_set_self]
    norm_num [updatedNpc, resolveAnchor, zoneAnchor, zoneEmoji, offsetOf, OFFSET]
  · norm_num

/-- Claim C6 (amended): on a canvas at least 40×40 and with all random
draws in the unit interval, each of applySnapshot, applyUpdate and
applyReset preserves the invariant that every stored record has a finite
position with nonnegative coordinates; positions are not, however,
guaranteed to lie inside the viewport, since the per-identifier offset is
added without clamping. -/
theorem C6_ops_preserve_nonneg (c : Canvas) (op : Op) (s : Store)
    (hw : 40 ≤ c.width) (hh : 40 ≤ c.height) (hop : Op.validRng op)
    (hs : Store.allNonneg s) : Store.allNonneg (applyOp c op s) := by
  cases op with
  | snapshot rows rng =>
    exact buildFreshAux_nonneg c hw hh rng hop rows 0 [] (by intro q hq; cases hq)
  | update m r1 r2 =>
    intro q hq
    rcases Store.mem_set hq with h | h
    · rw [h]
      exact updatedNpc_nonneg c hw hh m r1 r2 hop.1 hop.2.2.1
    · exact hs q h
  | reset => intro q hq; cases hq

theorem C6_witness :
    0 ≤ (updatedNpc ⟨1000, 600⟩ ⟨1, "eat", some "BUFFET"⟩ 0 0).x
    ∧ 0 ≤ (updatedNpc ⟨1000, 600⟩ ⟨1, "eat", some "BUFFET"⟩ 0 0).y := by
  have h := C6_ops_preserve_nonneg ⟨1000, 600⟩ (Op.update ⟨1, "eat", some "BUFFET"⟩ 0 0) []
    (by norm_num) (by norm_num)
    (by exact ⟨le_refl 0, by norm_num, le_refl 0, by norm_num⟩)
    (by intro q hq; cases hq)
  exact h (1, updatedNpc ⟨1000, 600⟩ ⟨1, "eat", some "BUFFET"⟩ 0 0)
    (by simp [applyOp, applyUpdate, Store.set])
